import Mathlib

/-!
Verification of the Majarrah REST API transaction endpoint (`index.js`).

The development shallowly embeds the source program: JavaScript numbers that
hold money are modelled as rationals (`ℚ`), `toFixed(2)` followed by
`parseFloat` is modelled as rounding to an integer number of hundredths with
the half-up tie rule of `Number.prototype.toFixed`, JS `split(' ')` is
modelled by an explicit character-level splitter with the same semantics,
thrown errors are modelled with `Except String`, and the external database
and JWT library are modelled as oracles (`DbOutcome`, `verify`).
-/

set_option autoImplicit false

deriving instance DecidableEq for Except

namespace Majarrah

/-! ### JavaScript string and number primitives used by the source -/

/-- Character-level splitter underlying `jsSplitSpace`.  The accumulator holds
the current (reversed) chunk; a space flushes it, mirroring
`String.prototype.split(' ')`, which keeps empty chunks. -/
def splitSpaceAux : List Char → List Char → List (List Char)
  | [], acc => [acc.reverse]
  | c :: cs, acc =>
    if c = ' ' then acc.reverse :: splitSpaceAux cs []
    else splitSpaceAux cs (c :: acc)

/-- JS `s.split(' ')`: splits on every single space, keeping empty chunks,
and returns `[""]` on the empty string. -/
def jsSplitSpace (s : String) : List String :=
  (splitSpaceAux s.data []).map String.mk

/-- Whether `pre` is a prefix of `l` (used to model `String.prototype.includes`). -/
def isPrefixList : List Char → List Char → Bool
  | [], _ => true
  | _ :: _, [] => false
  | a :: as, b :: bs => a == b && isPrefixList as bs

/-- Whether `needle` occurs as a contiguous sublist of `hay`. -/
def isSubstrList (needle : List Char) : List Char → Bool
  | [] => isPrefixList needle []
  | b :: bs => isPrefixList needle (b :: bs) || isSubstrList needle bs

/-- JS `hay.includes(needle)`: substring containment, used by the handler's
`error.message.includes('Unauthorized')` check. -/
def includesSubstr (needle hay : String) : Bool :=
  isSubstrList needle.data hay.data

/-- JS falsiness of an optional string: `undefined` and `""` are falsy.
Models the `!token`, `!jwtToken`, `!startDate` checks of the source. -/
def jsFalsyOptStr : Option String → Bool
  | none => true
  | some s => s == ""

/-- JS `a || b` on optional strings: `a` wins unless it is absent or empty. -/
def jsOrStr (a b : Option String) : Option String :=
  match a with
  | none => b
  | some s => if s == "" then b else some s

/-- JS `parseFloat(x.toFixed(2))` on an exact numeric value: round to an
integer number of hundredths.  `toFixed` picks the integer `n` minimising
`|n / 100 - x|`, taking the larger `n` on ties, i.e. `⌊100 x + 1/2⌋`. -/
def jsRound2 (q : ℚ) : ℚ :=
  (⌊q * 100 + 1 / 2⌋ : ℚ) / 100

/-! ### Data model

Raw rows as produced by `QUERY_SQL` (column aliases of the `SELECT` list), and
the formatted records produced by `queryTransactions`.  A JS `Date` is
abstracted by the two components of its `toISOString()` rendering
(`isoDate ++ "T" ++ isoTime ++ "Z"`); the source recovers exactly these
components by splitting on `'T'` and stripping the `'Z'`. -/

/-- Abstraction of a JS `Date`: the date and time components of its
ISO-8601 rendering. -/
structure JsDate where
  isoDate : String
  isoTime : String
  deriving DecidableEq

/-- One row of `QUERY_SQL`'s result set, named by the SQL column aliases. -/
structure RawTransactionRow where
  receipt_check_number : String
  transaction_unique_id : String
  transaction_datetime : JsDate
  transaction_gross : ℚ
  transaction_tax : ℚ
  calculated_net : ℚ
  transaction_service_charge : ℚ
  deriving DecidableEq

/-- Row construction performed by `QUERY_SQL` itself from `pos_order`
columns: `calculated_net` is `amount_total - amount_tax` and
`transaction_service_charge` is the constant `0.00` placeholder. -/
def mkQueryRow (name id : String) (date_order : JsDate)
    (amount_total amount_tax : ℚ) : RawTransactionRow :=
  { receipt_check_number := name
    transaction_unique_id := id
    transaction_datetime := date_order
    transaction_gross := amount_total
    transaction_tax := amount_tax
    calculated_net := amount_total - amount_tax
    transaction_service_charge := 0 }

/-- The external record shape returned by the endpoint (object keys of the
literal returned from the `map` callback; `Receipt/Check_Number` is spelled
`Receipt_Check_Number` here). -/
structure FormattedTransaction where
  Receipt_Check_Number : String
  Transaction_Unique_Id : String
  Transaction_Date : String
  Transaction_Time : String
  Transaction_Gross : ℚ
  Transaction_Net : ℚ
  Transaction_Tax : ℚ
  Transaction_Service_Charge : ℚ
  Transaction_Discount : ℚ
  deriving DecidableEq

/-! ### The formatter (the `map` callback of `queryTransactions`) -/

/-- The per-row formatting callback of `queryTransactions`
(`index.js` lines 81–112): each monetary field is
`parseFloat(parseFloat(raw).toFixed(2))`, the discount is
`parseFloat((gross - net - tax - serviceCharge).toFixed(2))`, and the
timestamp is split into its ISO date and time components. -/
def formatRow (row : RawTransactionRow) : FormattedTransaction :=
  let gross := jsRound2 row.transaction_gross
  let tax := jsRound2 row.transaction_tax
  let serviceCharge := jsRound2 row.transaction_service_charge
  let net := jsRound2 row.calculated_net
  let discount := jsRound2 (gross - net - tax - serviceCharge)
  { Receipt_Check_Number := row.receipt_check_number
    Transaction_Unique_Id := row.transaction_unique_id
    Transaction_Date := row.transaction_datetime.isoDate
    Transaction_Time := row.transaction_datetime.isoTime
    Transaction_Gross := gross
    Transaction_Net := net
    Transaction_Tax := tax
    Transaction_Service_Charge := serviceCharge
    Transaction_Discount := discount }

/-- `result.rows.map(row => ...)` of `queryTransactions`. -/
def formatTransactions (rows : List RawTransactionRow) : List FormattedTransaction :=
  rows.map formatRow

/-! ### The authorizer (`authorize`, `index.js` lines 23–41)

`jwt.verify` is external; it is modelled by an oracle `verify : String → Bool`
telling whether a given token verifies against the secret. -/

/-- Shallow embedding of `authorize`: missing/empty header, two-token
`Bearer <token>` shape check via `split(' ')` destructuring, then
verification of the second token only. -/
def authorize (verify : String → Bool) (token : Option String) : Except String Unit :=
  match token with
  | none => .error "Authorization token missing."
  | some s =>
    if s == "" then .error "Authorization token missing."
    else
      let parts := jsSplitSpace s
      let scheme := (parts[0]?).getD ""
      let jwtTok := parts[1]?
      if scheme != "Bearer" || jsFalsyOptStr jwtTok then
        .error "Invalid token format. Expected: Bearer <token>"
      else if verify (jwtTok.getD "") then .ok ()
      else .error "Unauthorized or expired token."

/-! ### The transaction query (`queryTransactions`, `index.js` lines 72–124)

The database is external; one call's interaction with it is modelled by an
oracle `DbOutcome`: `pool.connect()` failed, `client.query(...)` failed, or
the query succeeded with a list of rows.  The `try/catch/finally` resource
discipline is embedded explicitly, tracking how often a client was acquired
and released. -/

/-- Oracle for one execution's interaction with the connection pool. -/
inductive DbOutcome where
  | connectFail
  | queryFail
  | success (rows : List RawTransactionRow)

/-- Acquire/release accounting for one `queryTransactions` call. -/
structure DbState where
  acquired : Nat
  released : Nat
  deriving DecidableEq

/-- Shallow embedding of `queryTransactions`.  The first stage is the `try`
body: `let client; client = await pool.connect(); await client.query(...)`,
yielding the (possibly unassigned) `client` and the body's outcome.  The
`catch` clause rewraps any thrown error; the `finally` clause runs
`if (client) client.release()`. -/
def queryTransactionsRun (startDate endDate : String) (db : DbOutcome) :
    Except String (List FormattedTransaction) × DbState :=
  let tryStage : Option Unit × DbState × Except String (List FormattedTransaction) :=
    match db with
    | .connectFail =>
      (none, { acquired := 0, released := 0 }, .error "connect ETIMEDOUT")
    | .queryFail =>
      (some (), { acquired := 1, released := 0 }, .error "query failed")
    | .success rows =>
      (some (), { acquired := 1, released := 0 }, .ok (formatTransactions rows))
  let (client, st, bodyResult) := tryStage
  let caught : Except String (List FormattedTransaction) :=
    match bodyResult with
    | .ok v => .ok v
    | .error _ => .error "Failed to retrieve transactions from database."
  let stFinal : DbState :=
    match client with
    | some _ => { st with released := st.released + 1 }
    | none => st
  let _ := (startDate, endDate)
  (caught, stFinal)

/-! ### The Lambda handler (`exports.handler`, `index.js` lines 128–169) -/

/-- The `event.headers` object: the source reads `Authorization` then falls
back to `authorization`. -/
structure EventHeaders where
  Authorization : Option String
  authorization : Option String

/-- The inbound Lambda event.  `headers` and `queryStringParameters` may each
be absent (`undefined`), in which case the source's property reads throw a
`TypeError`. -/
structure Event where
  headers : Option EventHeaders
  queryStringParameters : Option (List (String × String))

/-- Response bodies are always produced by `JSON.stringify`: either the
object `{ message }` or the array of formatted transactions. -/
inductive ResponseBody where
  | messageObj (message : String)
  | transactions (ts : List FormattedTransaction)
  deriving DecidableEq

/-- The handler's response object: status code, the single
`Content-Type` header, and the serialized body. -/
structure HttpResponse where
  statusCode : Nat
  contentType : String
  body : ResponseBody
  deriving DecidableEq

/-- The handler's 400 response for a missing date parameter
(`index.js` lines 139–143). -/
def missingDatesResponse : HttpResponse :=
  { statusCode := 400
    contentType := "application/json"
    body := .messageObj "Missing start-Date or end-Date query parameters" }

/-- The handler's 200 response (`index.js` lines 150–154). -/
def successResponse (txs : List FormattedTransaction) : HttpResponse :=
  { statusCode := 200
    contentType := "application/json"
    body := .transactions txs }

/-- The body of the handler's `try` block.  An `Except.error` carries the
message of the error that the JS code would throw there (property reads on
`undefined`, `authorize`, or `queryTransactions`). -/
def handlerCore (verify : String → Bool) (db : DbOutcome) (event : Event) :
    Except String HttpResponse :=
  match event.headers with
  | none => .error "Cannot read properties of undefined (reading Authorization)"
  | some hs =>
    let authHeader := jsOrStr hs.Authorization hs.authorization
    match authorize verify authHeader with
    | .error msg => .error msg
    | .ok _ =>
      match event.queryStringParameters with
      | none => .error "Cannot read properties of undefined (reading start-Date)"
      | some qsp =>
        let startDate := qsp.lookup "start-Date"
        let endDate := qsp.lookup "end-Date"
        if jsFalsyOptStr startDate || jsFalsyOptStr endDate then
          .ok missingDatesResponse
        else
          match (queryTransactionsRun (startDate.getD "") (endDate.getD "") db).1 with
          | .error msg => .error msg
          | .ok txs => .ok (successResponse txs)

/-- The handler's `catch` clause: map the thrown error to 401 exactly when
its message contains `Unauthorized`, else 500, with the corresponding body. -/
def errorResponse (msg : String) : HttpResponse :=
  let statusCode := if includesSubstr "Unauthorized" msg then 401 else 500
  { statusCode := statusCode
    contentType := "application/json"
    body := .messageObj
      (if statusCode = 401 then "Unauthorized. Please check your JWT token."
       else "Internal server error: " ++ msg) }

/-- The complete handler: the `try` body with the `catch` clause wrapped
around it.  It is a total function: no event makes it throw. -/
def handler (verify : String → Bool) (db : DbOutcome) (event : Event) : HttpResponse :=
  match handlerCore verify db event with
  | .ok r => r
  | .error msg => errorResponse msg

/-! ### Tolerant-variant components

The spec describes a second deployment variant (casing-tolerant date
validation, null-tolerant formatting) whose code is not part of the sources
here; those components are modelled from the spec's words and marked as such
below. -/

/-- Modelled from the spec: the error taxonomy of the tolerant variant's
date-range parameter validator (`MissingDateRange`, `InvalidDateFormat`). -/
inductive DateValidationError where
  | MissingDateRange
  | InvalidDateFormat
  deriving DecidableEq

/-- Modelled from the spec: the recognized spellings of the start-date key,
in the order the spec lists them. -/
def startSpellings : List String :=
  ["start-Date", "start-date", "startDate", "startdate"]

/-- Modelled from the spec: the symmetric spellings of the end-date key. -/
def endSpellings : List String :=
  ["end-Date", "end-date", "endDate", "enddate"]

/-- First hit among a list of accepted key spellings in the query-parameter
map. -/
def lookupAny (keys : List String) (params : List (String × String)) : Option String :=
  match keys with
  | [] => none
  | k :: ks =>
    match params.lookup k with
    | some v => some v
    | none => lookupAny ks params

/-- Modelled from the spec: the literal date pattern — four digits, a dash,
two digits, a dash, two digits, anchored at both ends; no semantic
(calendar) date check. -/
def matchesDatePattern (s : String) : Bool :=
  match s.data with
  | [y1, y2, y3, y4, c1, m1, m2, c2, d1, d2] =>
    y1.isDigit && y2.isDigit && y3.isDigit && y4.isDigit &&
    c1 == '-' && m1.isDigit && m2.isDigit &&
    c2 == '-' && d1.isDigit && d2.isDigit
  | _ => false

/-- Modelled from the spec: the tolerant variant's date-range validator.
Fails with `MissingDateRange` (an HTTP 400) when either key is absent under
all recognized spellings, with `InvalidDateFormat` (an HTTP 400) when a
present value does not match the pattern, and otherwise returns the two
validated strings unchanged. -/
def validateDateRange (params : List (String × String)) :
    Except (Nat × DateValidationError) (String × String) :=
  match lookupAny startSpellings params, lookupAny endSpellings params with
  | some s, some e =>
    if matchesDatePattern s && matchesDatePattern e then .ok (s, e)
    else .error (400, .InvalidDateFormat)
  | _, _ => .error (400, .MissingDateRange)

/-- Modelled from the spec: the argument pairs with which the tolerant
pipeline invokes the query layer — exactly the validator's output when
validation succeeds, and nothing when it fails (validation happens before
any query is executed). -/
def tolerantQueryCalls (params : List (String × String)) : List (String × String) :=
  match validateDateRange params with
  | .ok (s, e) => [(s, e)]
  | .error _ => []

/-- A raw row as seen by the tolerant variant: every source field may be
null/absent. -/
structure TolerantRow where
  receipt_check_number : Option String
  transaction_unique_id : Option String
  transaction_datetime : Option JsDate
  transaction_gross : Option ℚ
  transaction_tax : Option ℚ
  calculated_net : Option ℚ
  transaction_service_charge : Option ℚ
  deriving DecidableEq

/-- Modelled from the spec: the tolerant variant's per-row formatter.
Null/absent numeric inputs default to zero before rounding; a null source
timestamp yields empty date and time strings; string fields coerce null to
the empty string; the discount is the derived residual
`Gross − Net − Tax − ServiceCharge`. -/
def tolerantFormatRow (row : TolerantRow) : FormattedTransaction :=
  let gross := jsRound2 (row.transaction_gross.getD 0)
  let tax := jsRound2 (row.transaction_tax.getD 0)
  let serviceCharge := jsRound2 (row.transaction_service_charge.getD 0)
  let net := jsRound2 (row.calculated_net.getD 0)
  let discount := jsRound2 (gross - net - tax - serviceCharge)
  { Receipt_Check_Number := row.receipt_check_number.getD ""
    Transaction_Unique_Id := row.transaction_unique_id.getD ""
    Transaction_Date := (row.transaction_datetime.map JsDate.isoDate).getD ""
    Transaction_Time := (row.transaction_datetime.map JsDate.isoTime).getD ""
    Transaction_Gross := gross
    Transaction_Net := net
    Transaction_Tax := tax
    Transaction_Service_Charge := serviceCharge
    Transaction_Discount := discount }

/-! ### Sample data used by the witness theorems -/

/-- A concrete raw row with the scenario values of the spec. -/
def sampleRow : RawTransactionRow :=
  { receipt_check_number := "POS-0001"
    transaction_unique_id := "42"
    transaction_datetime := ⟨"2024-01-01", "12:00:00.000"⟩
    transaction_gross := 100
    transaction_tax := 8
    calculated_net := 92
    transaction_service_charge := 0 }

/-- A tolerant-variant row in which every source field is null. -/
def nullRow : TolerantRow :=
  { receipt_check_number := none
    transaction_unique_id := none
    transaction_datetime := none
    transaction_gross := none
    transaction_tax := none
    calculated_net := none
    transaction_service_charge := none }

/-! ### Helper lemmas -/

/-- A value whose hundredfold is an integer is a fixed point of `jsRound2`. -/
theorem jsRound2_fixed (q : ℚ) (n : ℤ) (h : q * 100 = (n : ℚ)) : jsRound2 q = q := by
  have hfl : ⌊q * 100 + 1 / 2⌋ = n := by
    rw [h]
    rw [Int.floor_eq_iff]
    constructor
    · linarith
    · linarith
  rw [jsRound2, hfl, ← h]
  ring

theorem jsRound2_zero : jsRound2 0 = 0 := jsRound2_fixed 0 0 (by norm_num)

/-- On a header whose first space-separated token is `Bearer` and whose second
is nonempty, `authorize` reduces to verifying the second token. -/
theorem authorize_bearer (verify : String → Bool) (s t : String)
    (h0 : (jsSplitSpace s)[0]? = some "Bearer")
    (h1 : (jsSplitSpace s)[1]? = some t) (h2 : t ≠ "") :
    authorize verify (some s) =
      (if verify t then .ok () else .error "Unauthorized or expired token.") := by
  have hs : s ≠ "" := by
    intro h
    subst h
    simp [jsSplitSpace, splitSpaceAux] at h0
  simp only [authorize, h0, h1]
  rw [if_neg (by simpa using hs)]
  simp [jsFalsyOptStr, h2]

theorem handler_core_error (v : String → Bool) (d : DbOutcome) (e : Event) (msg : String)
    (h : handlerCore v d e = .error msg) : handler v d e = errorResponse msg := by
  simp [handler, h]

theorem errorResponse_statusCode (msg : String) :
    (errorResponse msg).statusCode = if includesSubstr "Unauthorized" msg then 401 else 500 :=
  rfl

/-- Every non-error result of the handler body is the 400 response or a 200
response. -/
theorem handlerCore_ok_shape (v : String → Bool) (d : DbOutcome) (e : Event) (r : HttpResponse)
    (h : handlerCore v d e = .ok r) :
    r = missingDatesResponse ∨ ∃ ts, r = successResponse ts := by
  rcases e with ⟨hd, qsp⟩
  cases hd with
  | none => simp [handlerCore] at h
  | some hs =>
    cases qsp with
    | none =>
      simp only [handlerCore] at h
      cases hauth : authorize v (jsOrStr hs.Authorization hs.authorization) with
      | error m => rw [hauth] at h; cases h
      | ok u => rw [hauth] at h; cases h
    | some q =>
      simp only [handlerCore] at h
      cases hauth : authorize v (jsOrStr hs.Authorization hs.authorization) with
      | error m => rw [hauth] at h; cases h
      | ok u =>
        rw [hauth] at h
        by_cases hif :
            (jsFalsyOptStr (q.lookup "start-Date") || jsFalsyOptStr (q.lookup "end-Date")) = true
        · rw [if_pos hif] at h
          exact Or.inl (Except.ok.inj h).symm
        · rw [if_neg hif] at h
          cases hq : (queryTransactionsRun ((q.lookup "start-Date").getD "")
              ((q.lookup "end-Date").getD "") d).1 with
          | error m => rw [hq] at h; cases h
          | ok ts => rw [hq] at h; exact Or.inr ⟨ts, (Except.ok.inj h).symm⟩

theorem handler_statusCode_mem (v : String → Bool) (d : DbOutcome) (e : Event) :
    (handler v d e).statusCode = 200 ∨ (handler v d e).statusCode = 400 ∨
    (handler v d e).statusCode = 401 ∨ (handler v d e).statusCode = 500 := by
  cases h : handlerCore v d e with
  | error msg =>
    rw [handler_core_error v d e msg h, errorResponse_statusCode]
    by_cases hin : includesSubstr "Unauthorized" msg = true
    · simp [hin]
    · simp [hin]
  | ok r =>
    have hshape := handlerCore_ok_shape v d e r h
    have hh : handler v d e = r := by simp [handler, h]
    rcases hshape with rfl | ⟨ts, rfl⟩ <;> simp [hh, missingDatesResponse, successResponse]

theorem handler_contentType (v : String → Bool) (d : DbOutcome) (e : Event) :
    (handler v d e).contentType = "application/json" := by
  cases h : handlerCore v d e with
  | error msg => rw [handler_core_error v d e msg h]; rfl
  | ok r =>
    have hshape := handlerCore_ok_shape v d e r h
    have hh : handler v d e = r := by simp [handler, h]
    rcases hshape with rfl | ⟨ts, rfl⟩ <;> simp [hh, missingDatesResponse, successResponse]

theorem handlerCore_headers_none (v : String → Bool) (d : DbOutcome) (e : Event)
    (h : e.headers = none) :
    handlerCore v d e = .error "Cannot read properties of undefined (reading Authorization)" := by
  rcases e with ⟨hd, qsp⟩
  cases h
  rfl

/-! ### Claim theorems -/

/-- Claim C1, counterexample to the claim as stated: on the authorized
variant, the request whose `Authorization` header is absent (headers object
present but both header spellings missing) yields status 500, not the
claimed 401 — `authorize` throws `Authorization token missing.`, whose
message does not contain the substring `Unauthorized`, so the handler's
catch clause classifies it as 500. -/
theorem C1_counterexample :
    (handler (fun _ => false) (.success []) ⟨some ⟨none, none⟩, some []⟩).statusCode = 500 ∧
    (handler (fun _ => false) (.success []) ⟨some ⟨none, none⟩, some []⟩).statusCode ≠ 401 := by
  decide

/-- Claim C1, amended: in the authorized variant, a request whose
`Authorization` header is absent yields HTTP 500 with the wrapped message
`Internal server error: Authorization token missing.`, while a request
bearing a syntactically valid (`Bearer <token>`) but expired or
signature-invalid token yields HTTP 401 with the fixed message
`Unauthorized. Please check your JWT token.`; `handler` is a function, so
no such request returns any other status code. -/
theorem C1_amended (verify : String → Bool) (db : DbOutcome)
    (q : Option (List (String × String))) (hs : EventHeaders) :
    (hs.Authorization = none → hs.authorization = none →
      (handler verify db ⟨some hs, q⟩).statusCode = 500 ∧
      (handler verify db ⟨some hs, q⟩).body
        = .messageObj "Internal server error: Authorization token missing.") ∧
    (∀ s t : String, jsOrStr hs.Authorization hs.authorization = some s →
      (jsSplitSpace s)[0]? = some "Bearer" → (jsSplitSpace s)[1]? = some t → t ≠ "" →
      verify t = false →
      (handler verify db ⟨some hs, q⟩).statusCode = 401 ∧
      (handler verify db ⟨some hs, q⟩).body
        = .messageObj "Unauthorized. Please check your JWT token.") := by
  constructor
  · intro hA hA2
    have hc : handlerCore verify db ⟨some hs, q⟩ = .error "Authorization token missing." := by
      simp only [handlerCore, hA, hA2, jsOrStr, authorize]
    rw [handler_core_error verify db ⟨some hs, q⟩ _ hc]
    constructor
    · rw [errorResponse_statusCode,
        show includesSubstr "Unauthorized" "Authorization token missing." = false by decide]
      rfl
    · rw [errorResponse,
        show includesSubstr "Unauthorized" "Authorization token missing." = false by decide]
      decide
  · intro s t hor h0 h1 h2 hv
    have hc : handlerCore verify db ⟨some hs, q⟩ = .error "Unauthorized or expired token." := by
      simp only [handlerCore, hor, authorize_bearer verify s t h0 h1 h2, hv]
      rfl
    rw [handler_core_error verify db ⟨some hs, q⟩ _ hc]
    constructor
    · rw [errorResponse_statusCode,
        show includesSubstr "Unauthorized" "Unauthorized or expired token." = true by decide]
      rfl
    · rw [errorResponse,
        show includesSubstr "Unauthorized" "Unauthorized or expired token." = true by decide]
      decide

/-- Claim C1 witness: the amended claim at concrete requests — a request
with no `Authorization` header gets 500; a request whose bearer token fails
verification gets 401. -/
theorem C1_amended_witness :
    (handler (fun _ => false) (.success []) ⟨some ⟨none, none⟩, some []⟩).statusCode = 500 ∧
    (handler (fun _ => false) (.success [])
      ⟨some ⟨some "Bearer expiredtok", none⟩, some []⟩).statusCode = 401 :=
  ⟨((C1_amended (fun _ => false) (.success []) (some []) ⟨none, none⟩).1 rfl rfl).1,
   ((C1_amended (fun _ => false) (.success []) (some []) ⟨some "Bearer expiredtok", none⟩).2
     "Bearer expiredtok" "expiredtok" (by decide) (by decide) (by decide) (by decide) rfl).1⟩

/-- Claim C2: in the tolerant variant, when both date keys are present (under
any recognized spelling) but at least one value fails the pattern, validation
fails with `InvalidDateFormat` (HTTP 400) and no query is executed; when
either key is absent under all spellings it fails with `MissingDateRange`;
the string `2024-13-99` matches the pattern (no semantic date check) and is
forwarded to the query layer unchanged. -/
theorem C2_date_validation (params : List (String × String)) (s e : String) :
    (lookupAny startSpellings params = some s →
      lookupAny endSpellings params = some e →
      (matchesDatePattern s = false ∨ matchesDatePattern e = false) →
      validateDateRange params = .error (400, .InvalidDateFormat) ∧
      tolerantQueryCalls params = []) ∧
    ((lookupAny startSpellings params = none ∨ lookupAny endSpellings params = none) →
      validateDateRange params = .error (400, .MissingDateRange)) ∧
    matchesDatePattern "2024-13-99" = true ∧
    (lookupAny startSpellings params = some "2024-13-99" →
      lookupAny endSpellings params = some "2024-13-99" →
      validateDateRange params = .ok ("2024-13-99", "2024-13-99") ∧
      tolerantQueryCalls params = [("2024-13-99", "2024-13-99")]) := by
  refine ⟨?_, ?_, by decide, ?_⟩
  · intro h1 h2 h3
    have hv : validateDateRange params = .error (400, .InvalidDateFormat) := by
      rw [validateDateRange, h1, h2]
      rcases h3 with h3 | h3 <;> simp [h3]
    exact ⟨hv, by rw [tolerantQueryCalls, hv]⟩
  · intro h
    rcases h with h | h
    · rw [validateDateRange, h]
    · rw [validateDateRange, h]
      cases lookupAny startSpellings params <;> rfl
  · intro h1 h2
    have hv : validateDateRange params = .ok ("2024-13-99", "2024-13-99") := by
      rw [validateDateRange, h1, h2]
      simp [show matchesDatePattern "2024-13-99" = true by decide]
    exact ⟨hv, by rw [tolerantQueryCalls, hv]⟩

/-- Claim C2 witness: the three branches at concrete parameter maps — a
malformed start date is rejected as `InvalidDateFormat`, a missing start key
is rejected as `MissingDateRange`, and `2024-13-99` passes and reaches the
query layer unchanged. -/
theorem C2_date_validation_witness :
    validateDateRange [("startdate", "2024-1-01"), ("end-Date", "2024-01-02")]
      = .error (400, .InvalidDateFormat) ∧
    validateDateRange [("endDate", "2024-01-02")] = .error (400, .MissingDateRange) ∧
    validateDateRange [("start-date", "2024-13-99"), ("enddate", "2024-13-99")]
      = .ok ("2024-13-99", "2024-13-99") ∧
    tolerantQueryCalls [("start-date", "2024-13-99"), ("enddate", "2024-13-99")]
      = [("2024-13-99", "2024-13-99")] :=
  ⟨((C2_date_validation [("startdate", "2024-1-01"), ("end-Date", "2024-01-02")]
      "2024-1-01" "2024-01-02").1 (by decide) (by decide) (Or.inl (by decide))).1,
   (C2_date_validation [("endDate", "2024-01-02")] "" "").2.1 (Or.inl (by decide)),
   ((C2_date_validation [("start-date", "2024-13-99"), ("enddate", "2024-13-99")]
      "" "").2.2.2 (by decide) (by decide)).1,
   ((C2_date_validation [("start-date", "2024-13-99"), ("enddate", "2024-13-99")]
      "" "").2.2.2 (by decide) (by decide)).2⟩

/-- Claim C3: in the tolerant variant, a parameter map using
`startDate`/`endDate` and one using `start-Date`/`end-Date` with identical
values validate identically and induce identical query invocations. -/
theorem C3_casing_equivalence (v w : String) :
    validateDateRange [("startDate", v), ("endDate", w)]
      = validateDateRange [("start-Date", v), ("end-Date", w)] ∧
    tolerantQueryCalls [("startDate", v), ("endDate", w)]
      = tolerantQueryCalls [("start-Date", v), ("end-Date", w)] :=
  ⟨rfl, rfl⟩

/-- Claim C4: a query row with gross 100.00 and tax 8.00 formats to
`Transaction_Net = 92.00` (net computed by the query as gross minus tax) and,
with the derived-discount rule of this variant,
`Transaction_Discount = 100.00 − 92.00 − 8.00 − 0.00 = 0.00`. -/
theorem C4_scenario_net_discount (name id : String) (d : JsDate) :
    (formatRow (mkQueryRow name id d 100 8)).Transaction_Net = 92 ∧
    (formatRow (mkQueryRow name id d 100 8)).Transaction_Discount = 0 := by
  have h100 : jsRound2 (100 : ℚ) = 100 := jsRound2_fixed 100 10000 (by norm_num)
  have h8 : jsRound2 (8 : ℚ) = 8 := jsRound2_fixed 8 800 (by norm_num)
  have h92 : jsRound2 (100 - 8 : ℚ) = 92 := by
    rw [show (100 - 8 : ℚ) = 92 by norm_num, jsRound2_fixed 92 9200 (by norm_num)]
  constructor
  · simp only [formatRow, mkQueryRow]
    exact h92
  · simp only [formatRow, mkQueryRow]
    rw [h100, h8, h92, jsRound2_zero]
    rw [show (100 - 92 - 8 - 0 : ℚ) = 0 by norm_num, jsRound2_zero]

/-- Claim C5: the formatter is exactly `map` over the query's rows — the
output length equals the input row count and the i-th output is the
formatted i-th input, so no reordering, filtering, or deduplication occurs
and the query's own ordering is preserved. -/
theorem C5_formatter_count_order (rows : List RawTransactionRow) :
    (formatTransactions rows).length = rows.length ∧
    ∀ (i : Nat) (h1 : i < (formatTransactions rows).length) (h2 : i < rows.length),
      (formatTransactions rows).get ⟨i, h1⟩ = formatRow (rows.get ⟨i, h2⟩) := by
  constructor
  · simp [formatTransactions]
  · intro i h1 h2
    simp [formatTransactions, List.get_eq_getElem, List.getElem_map]

/-- Claim C5 witness: the invariant at a concrete one-row result set. -/
theorem C5_formatter_count_order_witness :
    (formatTransactions [sampleRow]).length = [sampleRow].length ∧
    (formatTransactions [sampleRow]).get ⟨0, by simp [formatTransactions]⟩
      = formatRow ([sampleRow].get ⟨0, by simp⟩) :=
  ⟨(C5_formatter_count_order [sampleRow]).1,
   (C5_formatter_count_order [sampleRow]).2 0 (by simp [formatTransactions]) (by simp)⟩

/-- Claim C6: in the tolerant variant, a null `transaction_datetime` yields
empty `Transaction_Date` and `Transaction_Time` strings rather than a
failure, and each null numeric input defaults to zero before rounding,
yielding 0.00 in the corresponding output field. -/
theorem C6_tolerant_null_defaults (row : TolerantRow) :
    (row.transaction_datetime = none →
      (tolerantFormatRow row).Transaction_Date = "" ∧
      (tolerantFormatRow row).Transaction_Time = "") ∧
    (row.transaction_gross = none → (tolerantFormatRow row).Transaction_Gross = 0) ∧
    (row.transaction_tax = none → (tolerantFormatRow row).Transaction_Tax = 0) ∧
    (row.transaction_service_charge = none →
      (tolerantFormatRow row).Transaction_Service_Charge = 0) ∧
    (row.calculated_net = none → (tolerantFormatRow row).Transaction_Net = 0) := by
  refine ⟨fun h => ?_, fun h => ?_, fun h => ?_, fun h => ?_, fun h => ?_⟩ <;>
    simp [tolerantFormatRow, h, jsRound2_zero]

/-- Claim C6 witness: the all-null row formats to empty date/time strings
and all-zero monetary fields. -/
theorem C6_tolerant_null_defaults_witness :
    (tolerantFormatRow nullRow).Transaction_Date = "" ∧
    (tolerantFormatRow nullRow).Transaction_Time = "" ∧
    (tolerantFormatRow nullRow).Transaction_Gross = 0 ∧
    (tolerantFormatRow nullRow).Transaction_Tax = 0 ∧
    (tolerantFormatRow nullRow).Transaction_Service_Charge = 0 ∧
    (tolerantFormatRow nullRow).Transaction_Net = 0 :=
  ⟨((C6_tolerant_null_defaults nullRow).1 rfl).1,
   ((C6_tolerant_null_defaults nullRow).1 rfl).2,
   (C6_tolerant_null_defaults nullRow).2.1 rfl,
   (C6_tolerant_null_defaults nullRow).2.2.1 rfl,
   (C6_tolerant_null_defaults nullRow).2.2.2.1 rfl,
   (C6_tolerant_null_defaults nullRow).2.2.2.2 rfl⟩

/-- Claim C7: for every row, each numeric output field is the
round-to-two-decimals image of its (coerced) source and therefore an integer
number of hundredths — at most two decimal digits of nominal precision, for
zero and negative inputs as well. -/
theorem C7_two_decimal_precision (row : RawTransactionRow) :
    ((formatRow row).Transaction_Gross = jsRound2 row.transaction_gross ∧
      ∃ n : ℤ, (formatRow row).Transaction_Gross = (n : ℚ) / 100) ∧
    ((formatRow row).Transaction_Net = jsRound2 row.calculated_net ∧
      ∃ n : ℤ, (formatRow row).Transaction_Net = (n : ℚ) / 100) ∧
    ((formatRow row).Transaction_Tax = jsRound2 row.transaction_tax ∧
      ∃ n : ℤ, (formatRow row).Transaction_Tax = (n : ℚ) / 100) ∧
    ((formatRow row).Transaction_Service_Charge = jsRound2 row.transaction_service_charge ∧
      ∃ n : ℤ, (formatRow row).Transaction_Service_Charge = (n : ℚ) / 100) ∧
    (∃ n : ℤ, (formatRow row).Transaction_Discount = (n : ℚ) / 100) := by
  refine ⟨⟨rfl, ⟨_, rfl⟩⟩, ⟨rfl, ⟨_, rfl⟩⟩, ⟨rfl, ⟨_, rfl⟩⟩, ⟨rfl, ⟨_, rfl⟩⟩, ⟨_, rfl⟩⟩

/-- Claim C8: on every execution path of `queryTransactions` — connection
failure, query failure, or success — the number of releases equals the
number of acquisitions and never exceeds one: the pooled connection is
neither leaked nor double-released, and every acquired connection is
released exactly once by the `finally` clause. -/
theorem C8_release_exactly_once (startDate endDate : String) (db : DbOutcome) :
    (queryTransactionsRun startDate endDate db).2.released
      = (queryTransactionsRun startDate endDate db).2.acquired ∧
    (queryTransactionsRun startDate endDate db).2.released ≤ 1 := by
  cases db <;> simp [queryTransactionsRun]

/-- Claim C9: the handler is total (never throws): every response carries
status 200, 400, 401, or 500, the `application/json` content type, and a
JSON-serializable body; any error thrown inside the try block is mapped to
401 exactly when its message contains `Unauthorized` and to 500 otherwise —
in particular an event with missing `headers`, or with missing
`queryStringParameters` after successful authorization, produces a 500
response from the raised `TypeError` rather than an unhandled exception. -/
theorem C9_handler_total (verify : String → Bool) (db : DbOutcome) (event : Event) :
    ((handler verify db event).statusCode = 200 ∨ (handler verify db event).statusCode = 400 ∨
      (handler verify db event).statusCode = 401 ∨ (handler verify db event).statusCode = 500) ∧
    (handler verify db event).contentType = "application/json" ∧
    ((∃ m, (handler verify db event).body = .messageObj m) ∨
      (∃ ts, (handler verify db event).body = .transactions ts)) ∧
    (∀ msg, handlerCore verify db event = .error msg →
      (handler verify db event).statusCode
        = if includesSubstr "Unauthorized" msg then 401 else 500) ∧
    (event.headers = none → (handler verify db event).statusCode = 500) ∧
    (∀ hs, event.headers = some hs →
      authorize verify (jsOrStr hs.Authorization hs.authorization) = .ok () →
      event.queryStringParameters = none → (handler verify db event).statusCode = 500) := by
  refine ⟨handler_statusCode_mem verify db event, handler_contentType verify db event,
    ?_, ?_, ?_, ?_⟩
  · cases hb : (handler verify db event).body with
    | messageObj m => exact Or.inl ⟨m, rfl⟩
    | transactions ts => exact Or.inr ⟨ts, rfl⟩
  · intro msg hmsg
    rw [handler_core_error verify db event msg hmsg, errorResponse_statusCode]
  · intro h
    have hc := handlerCore_headers_none verify db event h
    rw [handler_core_error verify db event _ hc, errorResponse_statusCode]
    rw [show includesSubstr "Unauthorized"
      "Cannot read properties of undefined (reading Authorization)" = false by decide]
    rfl
  · intro hs hhs hauth hqsp
    have hc : handlerCore verify db event
        = .error "Cannot read properties of undefined (reading start-Date)" := by
      rcases event with ⟨hd, qsp⟩
      cases hhs
      cases hqsp
      simp only [handlerCore, hauth]
    rw [handler_core_error verify db event _ hc, errorResponse_statusCode]
    rw [show includesSubstr "Unauthorized"
      "Cannot read properties of undefined (reading start-Date)" = false by decide]
    rfl

/-- Claim C9 witness: concrete malformed events — one with no `headers`
object and one authorized event with no `queryStringParameters` — both
produce 500 responses. -/
theorem C9_handler_total_witness :
    (handler (fun _ => false) (.success []) ⟨none, none⟩).statusCode = 500 ∧
    (handler (fun _ => true) (.success [])
      ⟨some ⟨some "Bearer x", none⟩, none⟩).statusCode = 500 :=
  ⟨(C9_handler_total (fun _ => false) (.success []) ⟨none, none⟩).2.2.2.2.1 rfl,
   (C9_handler_total (fun _ => true) (.success []) ⟨some ⟨some "Bearer x", none⟩, none⟩).2.2.2.2.2
     ⟨some "Bearer x", none⟩ rfl (by decide) rfl⟩

/-- Claim C10: for every `Authorization` header whose first space-separated
token is `Bearer` and whose second is non-empty, `authorize` accepts the
shape and verifies only the second token, ignoring any further
space-separated content; for example `Bearer abc def` passes the shape
check and verifies `abc`. -/
theorem C10_bearer_ignores_extra_tokens (verify : String → Bool) (s t : String)
    (h0 : (jsSplitSpace s)[0]? = some "Bearer")
    (h1 : (jsSplitSpace s)[1]? = some t) (h2 : t ≠ "") :
    authorize verify (some s) =
      (if verify t then .ok () else .error "Unauthorized or expired token.") :=
  authorize_bearer verify s t h0 h1 h2

/-- Claim C10 witness: `Bearer abc def` passes the shape check and the
token that is verified is `abc`. -/
theorem C10_bearer_ignores_extra_tokens_witness :
    authorize (fun t => t == "abc") (some "Bearer abc def") = .ok () := by
  rw [C10_bearer_ignores_extra_tokens (fun t => t == "abc") "Bearer abc def" "abc"
    (by decide) (by decide) (by decide)]
  decide

end Majarrah
